import Mathlib

/-!
Verification development for the dispatch & pricing engine of a ride-hailing
service (Go sources: internal/service/pricing/calculator.go, the matching
service, the ride-creation HTTP handler and its request DTO).

Modelling conventions:
* Go `float64` values are embedded as exact rationals (ℚ); the claims under
  study are about the shape of the arithmetic, not about IEEE rounding.
* Go `int` is embedded as ℤ.
* The Redis-backed mutable state touched by the matching service is made
  explicit as `StoreState`: the `drivers:available` set and the per-driver
  `driver:<id>:current_ride` markers.  The geo index is read-only for the
  engine and is modelled as a query function `radius → candidate list`.
* Transient SREM failures (logged and skipped in Go) are modelled by an
  error oracle `String → Bool`.
* Fallible results use `Option`: `none` stands for `ErrDriverNotAvailable`.
-/

/-- Closed vehicle-class enum (`driver.VehicleType` with values
economy / premium / luxury). -/
inductive VehicleType
  | economy
  | premium
  | luxury
deriving DecidableEq

/-- Pricing configuration (`pricing.Config`): fare tables plus the surge
band.  The Go maps are total here because the enum is closed. -/
structure PricingConfig where
  baseFare : VehicleType → ℚ
  perKMRate : VehicleType → ℚ
  perMinuteRate : VehicleType → ℚ
  maxSurgeMultiplier : ℚ
  minSurgeMultiplier : ℚ

/-- The pricing configuration used by the repository's own unit tests
(base 50/100/200, per-km 10/15/25, per-minute 2/3/5, surge band [1, 3]). -/
def testPricingConfig : PricingConfig where
  baseFare := fun vt => match vt with
    | .economy => 50
    | .premium => 100
    | .luxury => 200
  perKMRate := fun vt => match vt with
    | .economy => 10
    | .premium => 15
    | .luxury => 25
  perMinuteRate := fun vt => match vt with
    | .economy => 2
    | .premium => 3
    | .luxury => 5
  maxSurgeMultiplier := 3
  minSurgeMultiplier := 1

/-- `Service.EstimateFare`: base + distance·perKM + minutes·perMinute. -/
def estimateFare (cfg : PricingConfig) (vehicleType : VehicleType)
    (distanceKM : ℚ) (estimatedMinutes : ℤ) : ℚ :=
  cfg.baseFare vehicleType + distanceKM * cfg.perKMRate vehicleType +
    (estimatedMinutes : ℚ) * cfg.perMinuteRate vehicleType

/-- `Service.GetSurgeMultiplier`: the cached value for the region, `none`
when the Redis read fails or the key is absent.  On a failed read it
returns 1.0 with no clamping; a successfully read value is clamped into
[minSurgeMultiplier, maxSurgeMultiplier]. -/
def getSurgeMultiplier (cfg : PricingConfig) (cached : Option ℚ) : ℚ :=
  match cached with
  | none => 1
  | some val =>
    if val > cfg.maxSurgeMultiplier then cfg.maxSurgeMultiplier
    else if val < cfg.minSurgeMultiplier then cfg.minSurgeMultiplier
    else val

/-- `pricing.FareBreakdown`. -/
structure FareBreakdown where
  baseFare : ℚ
  distanceFare : ℚ
  timeFare : ℚ
  surgeMultiplier : ℚ
  subtotal : ℚ
  total : ℚ
deriving DecidableEq

/-- `Service.CalculateFare`: breakdown with total = subtotal × surge, the
surge coming from `getSurgeMultiplier` on the region's cached value. -/
def calculateFare (cfg : PricingConfig) (vehicleType : VehicleType)
    (distanceKM : ℚ) (durationMinutes : ℤ) (cached : Option ℚ) : FareBreakdown :=
  let baseFare := cfg.baseFare vehicleType
  let distanceFare := distanceKM * cfg.perKMRate vehicleType
  let timeFare := (durationMinutes : ℚ) * cfg.perMinuteRate vehicleType
  let subtotal := baseFare + distanceFare + timeFare
  let surgeMultiplier := getSurgeMultiplier cfg cached
  { baseFare := baseFare
    distanceFare := distanceFare
    timeFare := timeFare
    surgeMultiplier := surgeMultiplier
    subtotal := subtotal
    total := subtotal * surgeMultiplier }

/-- Branch structure of `CalculateSurgeBasedOnDemand` after the ratio has
been computed (the Go code computes `ratio` then branches exactly so). -/
def surgeCurve (cfg : PricingConfig) (r : ℚ) : ℚ :=
  if r < 1/2 then 1
  else if r < 1 then 1 + r * (1/2)
  else if r < 2 then 3/2 + (r - 1) * 1
  else if 5/2 + (r - 2) * (1/4) > cfg.maxSurgeMultiplier then cfg.maxSurgeMultiplier
  else 5/2 + (r - 2) * (1/4)

/-- `Service.CalculateSurgeBasedOnDemand`: maxSurge when no drivers are
available, otherwise the piecewise curve on activeRides/availableDrivers. -/
def calculateSurgeBasedOnDemand (cfg : PricingConfig)
    (activeRides availableDrivers : ℤ) : ℚ :=
  if availableDrivers = 0 then cfg.maxSurgeMultiplier
  else surgeCurve cfg ((activeRides : ℚ) / (availableDrivers : ℚ))

/-- Reference surge curve transcribed from the specification's words
(section 4.3): r = active/available, maxSurge when available = 0, the four
published branches, with the last branch clamped to maxSurge. -/
def specSurgeCurve (cfg : PricingConfig) (activeAssignments availableWorkers : ℤ) : ℚ :=
  if availableWorkers = 0 then cfg.maxSurgeMultiplier
  else
    let r : ℚ := (activeAssignments : ℚ) / (availableWorkers : ℚ)
    if r < 1/2 then 1
    else if r < 1 then 1 + (1/2) * r
    else if r < 2 then 3/2 + 1 * (r - 1)
    else min (5/2 + (1/4) * (r - 2)) cfg.maxSurgeMultiplier

/-- Matching configuration (`matching.Config`): initial radius, maximum
expanded radius (0 means "not configured", defaulted to 50 inside the
engine) and the geo-query candidate cap. -/
structure MatchingConfig where
  maxRadiusKM : ℚ
  maxExpandedRadius : ℚ
  maxCandidates : ℕ
deriving DecidableEq

/-- The matching configuration hard-coded in the ride-creation handler:
initial 5 km, maximum expanded radius 50 km, up to 50 candidates. -/
def handlerMatchingConfig : MatchingConfig where
  maxRadiusKM := 5
  maxExpandedRadius := 50
  maxCandidates := 50

/-- Effective ceiling used by `FindNearestDriver`: `MaxExpandedRadius`,
defaulting to 50 km when that field is zero. -/
def effectiveMaxRadius (cfg : MatchingConfig) : ℚ :=
  if cfg.maxExpandedRadius = 0 then 50 else cfg.maxExpandedRadius

/-- Radius sequence built by `FindNearestDriver`: the initial radius,
followed by the 2×, 4×, 10× expansions, each appended only when it does
not exceed the effective maximum radius. -/
def searchRadii (cfg : MatchingConfig) : List ℚ :=
  [cfg.maxRadiusKM * 2, cfg.maxRadiusKM * 4, cfg.maxRadiusKM * 10].foldl
    (fun acc r => if r ≤ effectiveMaxRadius cfg then acc ++ [r] else acc)
    [cfg.maxRadiusKM]

/-- One element of a Redis GEORADIUS reply: member name, distance from the
query point, and coordinates. -/
structure GeoResult where
  name : String
  dist : ℚ
  latitude : ℚ
  longitude : ℚ
deriving DecidableEq

/-- Value stored under `driver:<id>:current_ride`, together with the TTL
(in seconds) it was written with. -/
structure RideMarker where
  value : String
  ttlSeconds : ℚ
deriving DecidableEq

/-- The marker written at the instant a driver is claimed: value
"claiming" with a 30-second expiry. -/
def claimingMarker : RideMarker := { value := "claiming", ttlSeconds := 30 }

/-- Mutable Redis state touched by the matching engine: the
`drivers:available` set and the `driver:<id>:current_ride` markers
(an association list; a fresh write is prepended, so lookup sees the
newest value). -/
structure StoreState where
  available : Finset String
  currentRide : List (String × RideMarker)
deriving DecidableEq

/-- Read of `driver:<id>:current_ride` (`none` models the key being
absent, i.e. the Redis GET returning an error). -/
def lookupRide (st : StoreState) (id : String) : Option RideMarker :=
  st.currentRide.lookup id

/-- Advisory pre-check of the claim pass: skip the candidate when
`driver:<id>:current_ride` exists and is non-empty. -/
def hasActiveRide (st : StoreState) (id : String) : Bool :=
  match lookupRide st id with
  | some m => m.value != ""
  | none => false

/-- Success path of the claim: the atomic `SREM drivers:available <id>`
reported the id present, so it is removed and the short-expiry claim
marker is written. -/
def claimDriver (st : StoreState) (id : String) : StoreState :=
  { available := st.available.erase id
    currentRide := (id, claimingMarker) :: st.currentRide }

/-- `Service.searchDriversInRadius` restricted to its state-and-decision
content: walk the geo results in order; skip a candidate when the advisory
current-ride pre-check fires, when the SREM call errors (oracle `e`), or
when the SREM reports the id absent; on the first candidate whose SREM
reports the id present, claim it and return immediately.  Returns the
winning geo result (the Go code wraps it into a Driver record) and the
resulting store state; `none` models `ErrDriverNotAvailable`. -/
def searchDriversInRadius (e : String → Bool) (st : StoreState) :
    List GeoResult → Option GeoResult × StoreState
  | [] => (none, st)
  | r :: rest =>
    if hasActiveRide st r.name then searchDriversInRadius e st rest
    else if e r.name then searchDriversInRadius e st rest
    else if r.name ∈ st.available then (some r, claimDriver st r.name)
    else searchDriversInRadius e st rest

/-- Radius loop of `FindNearestDriver`: try each radius in order, return
the first successful claim, thread the store state through. -/
def tryRadii (e : String → Bool) (geoQuery : ℚ → List GeoResult) :
    List ℚ → StoreState → Option GeoResult × StoreState
  | [], st => (none, st)
  | radius :: rest, st =>
    match searchDriversInRadius e st (geoQuery radius) with
    | (some d, st') => (some d, st')
    | (none, st') => tryRadii e geoQuery rest st'

/-- `Service.FindNearestDriver`: build the radius sequence and run the
radius loop; `geoQuery` models the read-only GEORADIUS index (results for
a given radius, ascending by distance, capped at MaxCandidates). -/
def findNearestDriver (cfg : MatchingConfig) (e : String → Bool)
    (geoQuery : ℚ → List GeoResult) (st : StoreState) :
    Option GeoResult × StoreState :=
  tryRadii e geoQuery (searchRadii cfg) st

/-- `dto.CreateRideRequest` as bound from JSON. -/
structure CreateRideRequest where
  riderID : String
  pickupLatitude : ℚ
  pickupLongitude : ℚ
  dropoffLatitude : ℚ
  dropoffLongitude : ℚ
  vehicleType : String
deriving DecidableEq

/-- The `oneof=economy premium luxury` binding constraint on the
vehicle-type field. -/
def validVehicleTypeString (s : String) : Bool :=
  s == "economy" || s == "premium" || s == "luxury"

/-- Gin binding of `CreateRideRequest`: every field carries `required`
(non-zero value for numbers, non-empty for strings) and the vehicle type
additionally carries the `oneof` constraint.  No range check is applied
to the coordinates. -/
def bindCreateRideRequest (req : CreateRideRequest) : Bool :=
  (req.riderID != "") &&
  decide (req.pickupLatitude ≠ 0) &&
  decide (req.pickupLongitude ≠ 0) &&
  decide (req.dropoffLatitude ≠ 0) &&
  decide (req.dropoffLongitude ≠ 0) &&
  validVehicleTypeString req.vehicleType

/-- Vehicle-type switch in `CreateRide`: unknown strings silently map to
economy (dead branch in practice, since binding already enforces oneof). -/
def parseVehicleType (s : String) : VehicleType :=
  if s = "economy" then .economy
  else if s = "premium" then .premium
  else if s = "luxury" then .luxury
  else .economy

/-- Outcome of the `CreateRide` handler up to the dispatch decision:
either the request is rejected at JSON binding (HTTP 400, no store call),
or the matching service runs and produces a dispatch result plus the
final store state. -/
inductive CreateRideOutcome
  | badRequest
  | dispatched (result : Option GeoResult) (finalState : StoreState)
deriving DecidableEq

/-- The `CreateRide` handler up to the dispatch decision: bind the JSON
request, then run `findNearestDriver` with the handler's hard-coded
matching configuration.  No coordinate-range validation occurs anywhere
on this path. -/
def createRide (req : CreateRideRequest) (e : String → Bool)
    (geoQuery : ℚ → List GeoResult) (st : StoreState) : CreateRideOutcome :=
  if bindCreateRideRequest req then
    let res := findNearestDriver handlerMatchingConfig e geoQuery st
    CreateRideOutcome.dispatched res.1 res.2
  else CreateRideOutcome.badRequest

/-- Error oracle for the SREM call that never fails (the common case in
the concrete scenarios below). -/
def noFail : String → Bool := fun _ => false

/-- Concrete geo result used in witnesses and counterexamples. -/
def w1 : GeoResult := { name := "w1", dist := 1, latitude := 10, longitude := 20 }

/-- Store state with exactly worker "w1" available and no ride markers. -/
def stAvail : StoreState := { available := {"w1"}, currentRide := [] }

/-- Store state where "w1" is in the available set but carries an active
current-ride marker, so the advisory pre-check skips it. -/
def stBusy : StoreState :=
  { available := {"w1"}, currentRide := [("w1", { value := "ride42", ttlSeconds := 0 })] }

/-- Geo query returning the single candidate "w1" at every radius. -/
def qW1 : ℚ → List GeoResult := fun _ => [w1]

/-- Pricing configuration with zero fare tables and surge band [lo, hi],
used to probe the surge computation at non-default bands. -/
def mkSurgeCfg (lo hi : ℚ) : PricingConfig where
  baseFare := fun _ => 0
  perKMRate := fun _ => 0
  perMinuteRate := fun _ => 0
  maxSurgeMultiplier := hi
  minSurgeMultiplier := lo

/-- Matching configuration with initial radius 5 and maximum expanded
radius 30 (so the 10× term overshoots the ceiling). -/
def midCapCfg : MatchingConfig where
  maxRadiusKM := 5
  maxExpandedRadius := 30
  maxCandidates := 50

/-- Matching configuration whose initial radius 60 exceeds its maximum
expanded radius 50. -/
def invCfg : MatchingConfig where
  maxRadiusKM := 60
  maxExpandedRadius := 50
  maxCandidates := 10

/-- Ride request with an out-of-range pickup latitude (91) and a known
vehicle class. -/
def reqLat91 : CreateRideRequest where
  riderID := "rider-1"
  pickupLatitude := 91
  pickupLongitude := 10
  dropoffLatitude := 12
  dropoffLongitude := 13
  vehicleType := "economy"

/-- Ride request with an unknown vehicle class string. -/
def reqBadType : CreateRideRequest where
  riderID := "rider-1"
  pickupLatitude := 11
  pickupLongitude := 10
  dropoffLatitude := 12
  dropoffLongitude := 13
  vehicleType := "spaceship"

/-! Helper lemmas shared by the claim theorems. -/

/-- Characterization of a successful claim pass: the winner comes from the
candidate list, its id was present in the available set, and the final
state is exactly the claimed state. -/
theorem search_some_spec (e : String → Bool) (st : StoreState) (rs : List GeoResult)
    (r : GeoResult) (st' : StoreState)
    (h : searchDriversInRadius e st rs = (some r, st')) :
    r ∈ rs ∧ r.name ∈ st.available ∧ st' = claimDriver st r.name := by
  induction rs with
  | nil => simp [searchDriversInRadius] at h
  | cons x xs ih =>
    simp only [searchDriversInRadius] at h
    split_ifs at h with h1 h2 h3
    · obtain ⟨hm, ha, hs⟩ := ih h
      exact ⟨List.mem_cons_of_mem _ hm, ha, hs⟩
    · obtain ⟨hm, ha, hs⟩ := ih h
      exact ⟨List.mem_cons_of_mem _ hm, ha, hs⟩
    · rw [Prod.mk.injEq, Option.some.injEq] at h
      obtain ⟨rfl, rfl⟩ := h
      exact ⟨List.mem_cons_self _ _, h3, rfl⟩
    · obtain ⟨hm, ha, hs⟩ := ih h
      exact ⟨List.mem_cons_of_mem _ hm, ha, hs⟩

/-- Frame property of a failed claim pass: the store state is untouched. -/
theorem search_none_frame (e : String → Bool) (st : StoreState) (rs : List GeoResult)
    (st' : StoreState) (h : searchDriversInRadius e st rs = (none, st')) : st' = st := by
  induction rs with
  | nil =>
    simp only [searchDriversInRadius, Prod.mk.injEq] at h
    exact h.2.symm
  | cons x xs ih =>
    simp only [searchDriversInRadius] at h
    split_ifs at h with h1 h2 h3
    · exact ih h
    · exact ih h
    · simp at h
    · exact ih h

/-- Frame property of the radius loop: if every radius fails, the store
state is untouched. -/
theorem tryRadii_none_frame (e : String → Bool) (geoQuery : ℚ → List GeoResult)
    (radii : List ℚ) : ∀ st st' : StoreState,
    tryRadii e geoQuery radii st = (none, st') → st' = st := by
  induction radii with
  | nil =>
    intro st st' h
    simp only [tryRadii, Prod.mk.injEq] at h
    exact h.2.symm
  | cons radius rest ih =>
    intro st st' h
    simp only [tryRadii] at h
    rcases hs : searchDriversInRadius e st (geoQuery radius) with ⟨o, st1⟩
    rw [hs] at h
    cases o with
    | some d => simp at h
    | none =>
      simp only at h
      have h1 := ih st1 st' h
      rw [h1, search_none_frame e st (geoQuery radius) st1 hs]

/-- Explicit if-form of the generated radius sequence. -/
theorem searchRadii_eq (cfg : MatchingConfig) :
    searchRadii cfg = cfg.maxRadiusKM ::
      ((if cfg.maxRadiusKM * 2 ≤ effectiveMaxRadius cfg then [cfg.maxRadiusKM * 2] else []) ++
       (if cfg.maxRadiusKM * 4 ≤ effectiveMaxRadius cfg then [cfg.maxRadiusKM * 4] else []) ++
       (if cfg.maxRadiusKM * 10 ≤ effectiveMaxRadius cfg then [cfg.maxRadiusKM * 10] else [])) := by
  simp only [searchRadii, List.foldl_cons, List.foldl_nil]
  split_ifs <;> simp

/-- Monotonicity of the branch curve in the ratio, valid once the cap is
at least 2.5 (otherwise the clamp of the last branch can undershoot the
unclamped third branch). -/
theorem surgeCurve_mono (cfg : PricingConfig) (r₁ r₂ : ℚ)
    (hmax : 5/2 ≤ cfg.maxSurgeMultiplier) (h : r₁ ≤ r₂) :
    surgeCurve cfg r₁ ≤ surgeCurve cfg r₂ := by
  unfold surgeCurve
  split_ifs <;> linarith

/-- The branch curve never exceeds the cap once the cap is at least 2.5. -/
theorem surgeCurve_le_max (cfg : PricingConfig) (r : ℚ)
    (hmax : 5/2 ≤ cfg.maxSurgeMultiplier) :
    surgeCurve cfg r ≤ cfg.maxSurgeMultiplier := by
  unfold surgeCurve
  split_ifs <;> linarith

/-- C4: the implemented surge computation agrees with the specification's
piecewise reference curve everywhere — maxSurge on zero supply, 1.0 below
ratio 0.5, 1.0 + 0.5·r up to 1.0, 1.5 + (r − 1) up to 2.0, then
2.5 + 0.25·(r − 2) clamped to maxSurge — and takes the published concrete
values ComputeSurge(5, 20) = 1, ComputeSurge(40, 20) = 2.5 (cap 3), and
ComputeSurge(100, 0) = maxSurge. -/
theorem surge_matches_spec_curve :
    (∀ (cfg : PricingConfig) (a d : ℤ),
      calculateSurgeBasedOnDemand cfg a d = specSurgeCurve cfg a d) ∧
    calculateSurgeBasedOnDemand testPricingConfig 5 20 = 1 ∧
    calculateSurgeBasedOnDemand testPricingConfig 40 20 = 5/2 ∧
    (∀ cfg : PricingConfig,
      calculateSurgeBasedOnDemand cfg 100 0 = cfg.maxSurgeMultiplier) := by
  refine ⟨?_, ?_, ?_, ?_⟩
  · intro cfg a d
    unfold calculateSurgeBasedOnDemand specSurgeCurve surgeCurve
    by_cases hd : d = 0
    · simp [hd]
    · simp only [hd, if_false]
      set r : ℚ := (a : ℚ) / (d : ℚ) with hr
      split_ifs with h1 h2 h3 h4
      · rfl
      · ring
      · ring
      · rw [min_eq_right]
        nlinarith
      · rw [min_eq_left]
        · ring
        · nlinarith
  · norm_num [calculateSurgeBasedOnDemand, surgeCurve, testPricingConfig]
  · norm_num [calculateSurgeBasedOnDemand, surgeCurve, testPricingConfig]
  · intro cfg
    simp [calculateSurgeBasedOnDemand]

/-- C6: EstimateFare is exactly base + distance·perKm + minutes·perMinute
with no extra floor, so the zero-distance zero-duration trip costs exactly
the base fare; with the repository's test rates the published examples
hold (190.0 and 70.0). -/
theorem estimateFare_formula :
    (∀ (cfg : PricingConfig) (vt : VehicleType) (d : ℚ) (m : ℤ),
      estimateFare cfg vt d m =
        cfg.baseFare vt + d * cfg.perKMRate vt + (m : ℚ) * cfg.perMinuteRate vt) ∧
    (∀ (cfg : PricingConfig) (vt : VehicleType),
      estimateFare cfg vt 0 0 = cfg.baseFare vt) ∧
    estimateFare testPricingConfig .economy 10 20 = 190 ∧
    estimateFare testPricingConfig .economy 0 10 = 70 := by
  refine ⟨fun cfg vt d m => rfl, fun cfg vt => by simp [estimateFare], ?_, ?_⟩ <;>
    norm_num [estimateFare, testPricingConfig]

/-- C10: when the cached surge value is absent or its read fails, the
lookup returns exactly 1.0 with no clamping, so with minSurge > 1 the
multiplier applied to the fare (total = subtotal × 1) lies below the
configured band; only a successfully read cached value is clamped into
[minSurge, maxSurge]. -/
theorem surge_lookup_default_unclamped (cfg : PricingConfig) (vt : VehicleType)
    (d : ℚ) (m : ℤ) (v : ℚ) :
    getSurgeMultiplier cfg none = 1 ∧
    (1 < cfg.minSurgeMultiplier →
      getSurgeMultiplier cfg none < cfg.minSurgeMultiplier) ∧
    (cfg.minSurgeMultiplier ≤ cfg.maxSurgeMultiplier →
      cfg.minSurgeMultiplier ≤ getSurgeMultiplier cfg (some v) ∧
      getSurgeMultiplier cfg (some v) ≤ cfg.maxSurgeMultiplier) ∧
    (calculateFare cfg vt d m none).surgeMultiplier = 1 ∧
    (calculateFare cfg vt d m none).total = (calculateFare cfg vt d m none).subtotal := by
  refine ⟨rfl, ?_, ?_, rfl, ?_⟩
  · intro h
    simpa [getSurgeMultiplier] using h
  · intro h
    simp only [getSurgeMultiplier]
    split_ifs <;> constructor <;> linarith
  · simp [calculateFare, getSurgeMultiplier]

/-- Witness for C10 at the band [1.5, 3] with cached value 2. -/
theorem surge_lookup_default_unclamped_witness :
    getSurgeMultiplier (mkSurgeCfg (3/2) 3) none < (mkSurgeCfg (3/2) 3).minSurgeMultiplier ∧
    (mkSurgeCfg (3/2) 3).minSurgeMultiplier ≤ getSurgeMultiplier (mkSurgeCfg (3/2) 3) (some 2) ∧
    getSurgeMultiplier (mkSurgeCfg (3/2) 3) (some 2) ≤ (mkSurgeCfg (3/2) 3).maxSurgeMultiplier :=
  ⟨(surge_lookup_default_unclamped (mkSurgeCfg (3/2) 3) .economy 0 0 2).2.1
      (by norm_num [mkSurgeCfg]),
    (surge_lookup_default_unclamped (mkSurgeCfg (3/2) 3) .economy 0 0 2).2.2.1
      (by norm_num [mkSurgeCfg])⟩

/-- C3 counterexample: with the configured band [2, 3], the computed
multiplier for (0 active, 10 available) is 1.0, strictly below minSurge,
so the computed value is not clamped into [minSurge, maxSurge]. -/
theorem surge_band_cex :
    calculateSurgeBasedOnDemand (mkSurgeCfg 2 3) 0 10 = 1 ∧
    calculateSurgeBasedOnDemand (mkSurgeCfg 2 3) 0 10 <
      (mkSurgeCfg 2 3).minSurgeMultiplier := by
  constructor <;> norm_num [calculateSurgeBasedOnDemand, surgeCurve, mkSurgeCfg]

/-- C3 amended: the computed multiplier is only guaranteed inside
[minSurge, maxSurge] for bands with minSurge ≤ 1 and maxSurge ≥ 2.5 (the
code clamps only in the ratio ≥ 2 branch, and only against the cap); a
successfully read cached override, by contrast, is always clamped into
the band. -/
theorem surge_band_amended (cfg : PricingConfig) (a d : ℤ) (v : ℚ)
    (hmin : cfg.minSurgeMultiplier ≤ 1) (hmax : 5/2 ≤ cfg.maxSurgeMultiplier) :
    (cfg.minSurgeMultiplier ≤ calculateSurgeBasedOnDemand cfg a d ∧
      calculateSurgeBasedOnDemand cfg a d ≤ cfg.maxSurgeMultiplier) ∧
    (cfg.minSurgeMultiplier ≤ getSurgeMultiplier cfg (some v) ∧
      getSurgeMultiplier cfg (some v) ≤ cfg.maxSurgeMultiplier) := by
  constructor
  · unfold calculateSurgeBasedOnDemand surgeCurve
    split_ifs <;> constructor <;> linarith
  · simp only [getSurgeMultiplier]
    split_ifs <;> constructor <;> linarith

/-- Witness for the amended C3 at the test band [1, 3], inputs (3, 2) and
cached value 5. -/
theorem surge_band_amended_witness :
    (testPricingConfig.minSurgeMultiplier ≤ calculateSurgeBasedOnDemand testPricingConfig 3 2 ∧
      calculateSurgeBasedOnDemand testPricingConfig 3 2 ≤ testPricingConfig.maxSurgeMultiplier) ∧
    (testPricingConfig.minSurgeMultiplier ≤ getSurgeMultiplier testPricingConfig (some 5) ∧
      getSurgeMultiplier testPricingConfig (some 5) ≤ testPricingConfig.maxSurgeMultiplier) :=
  surge_band_amended testPricingConfig 3 2 5 (by norm_num [testPricingConfig])
    (by norm_num [testPricingConfig])

/-- C9 counterexample: with cap maxSurge = 2 the curve is not monotone in
the ratio — 19 ≤ 20 active over 10 available yields 2.4 then 2.0 — and
the zero-supply value maxSurge = 2 is not an upper bound of the curve
(2.4 exceeds it). -/
theorem surge_monotone_cex :
    calculateSurgeBasedOnDemand (mkSurgeCfg 1 2) 20 10 <
      calculateSurgeBasedOnDemand (mkSurgeCfg 1 2) 19 10 ∧
    (mkSurgeCfg 1 2).maxSurgeMultiplier <
      calculateSurgeBasedOnDemand (mkSurgeCfg 1 2) 19 10 := by
  constructor <;> norm_num [calculateSurgeBasedOnDemand, surgeCurve, mkSurgeCfg]

/-- C9 amended: whenever the cap satisfies maxSurge ≥ 2.5, the surge
computation is monotone non-decreasing in the active count for fixed
positive supply, and maxSurge bounds every value the computation
produces. -/
theorem surge_monotone_amended (cfg : PricingConfig) (a₁ a₂ d : ℤ)
    (hmax : 5/2 ≤ cfg.maxSurgeMultiplier) (hd : 0 < d) (ha : a₁ ≤ a₂) :
    calculateSurgeBasedOnDemand cfg a₁ d ≤ calculateSurgeBasedOnDemand cfg a₂ d ∧
    (∀ a' d' : ℤ, calculateSurgeBasedOnDemand cfg a' d' ≤ cfg.maxSurgeMultiplier) := by
  constructor
  · have hd0 : d ≠ 0 := ne_of_gt hd
    have hdq : (0 : ℚ) < (d : ℚ) := by exact_mod_cast hd
    have hr : (a₁ : ℚ) / (d : ℚ) ≤ (a₂ : ℚ) / (d : ℚ) := by
      apply div_le_div_of_nonneg_right ?_ hdq.le
      exact_mod_cast ha
    simp only [calculateSurgeBasedOnDemand, hd0, if_false]
    exact surgeCurve_mono cfg _ _ hmax hr
  · intro a' d'
    unfold calculateSurgeBasedOnDemand
    split_ifs with h
    · exact le_refl _
    · exact surgeCurve_le_max cfg _ hmax

/-- Witness for the amended C9 at the test band [1, 3], supply 10, active
counts 12 ≤ 25. -/
theorem surge_monotone_amended_witness :
    (calculateSurgeBasedOnDemand testPricingConfig 12 10 ≤
      calculateSurgeBasedOnDemand testPricingConfig 25 10) ∧
    (∀ a' d' : ℤ,
      calculateSurgeBasedOnDemand testPricingConfig a' d' ≤
        testPricingConfig.maxSurgeMultiplier) :=
  surge_monotone_amended testPricingConfig 12 25 10 (by norm_num [testPricingConfig])
    (by norm_num) (by norm_num)

/-- C1: the claim pass returns only workers from the geo candidate list;
a candidate is won exactly when the atomic conditional removal reports its
id present in the available set (the current-ride pre-check being advisory
only); on a win the 30-second claim marker is written, exactly that id is
removed, and the worker is returned at once; hence a second sequential
pass without an intervening add can never return the same worker. -/
theorem claim_pass_correct (e : String → Bool) (st : StoreState)
    (rs : List GeoResult) (r : GeoResult) (st' : StoreState)
    (h : searchDriversInRadius e st rs = (some r, st')) :
    r ∈ rs ∧
    r.name ∈ st.available ∧
    st'.available = st.available.erase r.name ∧
    lookupRide st' r.name = some claimingMarker ∧
    r.name ∉ st'.available ∧
    (∀ (st₂ : StoreState) (rs₂ : List GeoResult) (r₂ : GeoResult) (st₃ : StoreState),
      r.name ∉ st₂.available →
      searchDriversInRadius e st₂ rs₂ = (some r₂, st₃) → r₂.name ≠ r.name) := by
  obtain ⟨hm, ha, rfl⟩ := search_some_spec e st rs r st' h
  refine ⟨hm, ha, rfl, ?_, ?_, ?_⟩
  · simp [lookupRide, claimDriver, List.lookup]
  · simp [claimDriver]
  · intro st₂ rs₂ r₂ st₃ hab h₂ heq
    obtain ⟨_, ha₂, _⟩ := search_some_spec e st₂ rs₂ r₂ st₃ h₂
    rw [heq] at ha₂
    exact hab ha₂

/-- Witness for C1: one available candidate "w1" is claimed. -/
theorem claim_pass_correct_witness :
    w1 ∈ [w1] ∧
    w1.name ∈ stAvail.available ∧
    (claimDriver stAvail "w1").available = stAvail.available.erase w1.name ∧
    lookupRide (claimDriver stAvail "w1") w1.name = some claimingMarker ∧
    w1.name ∉ (claimDriver stAvail "w1").available ∧
    (∀ (st₂ : StoreState) (rs₂ : List GeoResult) (r₂ : GeoResult) (st₃ : StoreState),
      w1.name ∉ st₂.available →
      searchDriversInRadius noFail st₂ rs₂ = (some r₂, st₃) → r₂.name ≠ w1.name) :=
  claim_pass_correct noFail stAvail [w1] w1 (claimDriver stAvail "w1") (by decide)

/-- C8: when a claim pass, or the whole radius loop, ends with no
successful claim (ErrDriverNotAvailable, modelled as `none`), the
availability set and the ride markers are exactly as before — removal and
the 30-second marker happen only on the success path (and the geo index
is never written by the engine at all). -/
theorem dispatch_failure_frame (cfg : MatchingConfig) (e : String → Bool)
    (q : ℚ → List GeoResult) (st st₁ st₂ : StoreState) (rs : List GeoResult) :
    (searchDriversInRadius e st rs = (none, st₁) → st₁ = st) ∧
    (findNearestDriver cfg e q st = (none, st₂) → st₂ = st) :=
  ⟨search_none_frame e st rs st₁,
    fun h => tryRadii_none_frame e q (searchRadii cfg) st st₂ h⟩

/-- Witness for C8: the single candidate is pre-check-skipped at every
radius, the engine reports no supply, and the state is unchanged. -/
theorem dispatch_failure_frame_witness :
    searchDriversInRadius noFail stBusy [w1] = (none, stBusy) ∧
    findNearestDriver handlerMatchingConfig noFail qW1 stBusy = (none, stBusy) ∧
    stBusy = stBusy :=
  ⟨by decide,
    by
      norm_num [findNearestDriver, searchRadii, effectiveMaxRadius,
        handlerMatchingConfig, tryRadii, qW1]
      decide,
    (dispatch_failure_frame handlerMatchingConfig noFail qW1 stBusy stBusy stBusy [w1]).2
      (by
        norm_num [findNearestDriver, searchRadii, effectiveMaxRadius,
          handlerMatchingConfig, tryRadii, qW1]
        decide)⟩

/-- C2 counterexample: for initial radius 5 and maximum radius 30 the
generated sequence is [5, 10, 20]; 30 is not appended as a ceiling even
though the 10× term (50) overshoots it, contradicting the claimed
"always includes max-radius-km as a final ceiling term". -/
theorem searchRadii_ceiling_cex :
    searchRadii midCapCfg = [5, 10, 20] ∧ (30 : ℚ) ∉ searchRadii midCapCfg := by
  constructor <;> norm_num [searchRadii, effectiveMaxRadius, midCapCfg]

/-- C2 amended: the sequence is the initial radius followed by exactly
those of its 2×, 4×, 10× multiples that do not exceed the effective
maximum (the maximum itself is never appended as a separate ceiling); for
a positive initial radius the radii are strictly ascending; initial 5 with
maximum 50 yields exactly [5, 10, 20, 50]; and a successful claim at the
first radius is returned immediately. -/
theorem searchRadii_spec (cfg : MatchingConfig) (h : 0 < cfg.maxRadiusKM) :
    searchRadii cfg = cfg.maxRadiusKM ::
      List.filter (fun x => decide (x ≤ effectiveMaxRadius cfg))
        [cfg.maxRadiusKM * 2, cfg.maxRadiusKM * 4, cfg.maxRadiusKM * 10] ∧
    List.Sorted (fun a b => a < b) (searchRadii cfg) ∧
    searchRadii handlerMatchingConfig = [5, 10, 20, 50] ∧
    (∀ (e : String → Bool) (q : ℚ → List GeoResult) (st : StoreState)
        (r : GeoResult) (st' : StoreState),
      searchDriversInRadius e st (q cfg.maxRadiusKM) = (some r, st') →
      findNearestDriver cfg e q st = (some r, st')) := by
  refine ⟨?_, ?_, ?_, ?_⟩
  · rw [searchRadii_eq]
    simp only [List.filter_cons, List.filter_nil, decide_eq_true_eq]
    split_ifs <;> simp
  · rw [searchRadii_eq]
    by_cases h2 : cfg.maxRadiusKM * 2 ≤ effectiveMaxRadius cfg <;>
      by_cases h4 : cfg.maxRadiusKM * 4 ≤ effectiveMaxRadius cfg <;>
        by_cases h10 : cfg.maxRadiusKM * 10 ≤ effectiveMaxRadius cfg <;>
          simp [h2, h4, h10, List.sorted_cons] <;> and_intros <;> linarith
  · norm_num [searchRadii, effectiveMaxRadius, handlerMatchingConfig]
  · intro e q st r st' hs
    rw [findNearestDriver, searchRadii_eq]
    simp [tryRadii, hs]

/-- Witness for the amended C2 at the handler's configuration (5, 50). -/
theorem searchRadii_spec_witness :
    searchRadii handlerMatchingConfig = handlerMatchingConfig.maxRadiusKM ::
      List.filter (fun x => decide (x ≤ effectiveMaxRadius handlerMatchingConfig))
        [handlerMatchingConfig.maxRadiusKM * 2, handlerMatchingConfig.maxRadiusKM * 4,
          handlerMatchingConfig.maxRadiusKM * 10] ∧
    List.Sorted (fun a b => a < b) (searchRadii handlerMatchingConfig) ∧
    searchRadii handlerMatchingConfig = [5, 10, 20, 50] ∧
    (∀ (e : String → Bool) (q : ℚ → List GeoResult) (st : StoreState)
        (r : GeoResult) (st' : StoreState),
      searchDriversInRadius e st (q handlerMatchingConfig.maxRadiusKM) = (some r, st') →
      findNearestDriver handlerMatchingConfig e q st = (some r, st')) :=
  searchRadii_spec handlerMatchingConfig (by norm_num [handlerMatchingConfig])

/-- C7 counterexample: with initial radius 60 exceeding the maximum 50 no
configuration error is raised — the sequence degenerates to [60] and the
engine performs a normal search, here even claiming a driver. -/
theorem config_validation_cex :
    searchRadii invCfg = [60] ∧
    findNearestDriver invCfg noFail qW1 stAvail = (some w1, claimDriver stAvail "w1") := by
  constructor
  · norm_num [searchRadii, effectiveMaxRadius, invCfg]
  · norm_num [findNearestDriver, searchRadii, effectiveMaxRadius, invCfg, tryRadii, qW1]
    decide

/-- C7 amended: the engine performs no validation of
initial-radius ≤ max-radius (no configuration error exists); when the
initial radius exceeds the configured maximum, every expansion term is
filtered out, the sequence degenerates to [initial], and the engine just
runs the single-radius search. -/
theorem no_config_validation (cfg : MatchingConfig)
    (h0 : cfg.maxExpandedRadius ≠ 0) (hlt : cfg.maxExpandedRadius < cfg.maxRadiusKM)
    (hpos : 0 ≤ cfg.maxRadiusKM) :
    searchRadii cfg = [cfg.maxRadiusKM] ∧
    ∀ (e : String → Bool) (q : ℚ → List GeoResult) (st : StoreState),
      findNearestDriver cfg e q st = searchDriversInRadius e st (q cfg.maxRadiusKM) := by
  have hM : effectiveMaxRadius cfg = cfg.maxExpandedRadius := if_neg h0
  have h2 : ¬ cfg.maxRadiusKM * 2 ≤ effectiveMaxRadius cfg := by rw [hM]; intro hc; linarith
  have h4 : ¬ cfg.maxRadiusKM * 4 ≤ effectiveMaxRadius cfg := by rw [hM]; intro hc; linarith
  have h10 : ¬ cfg.maxRadiusKM * 10 ≤ effectiveMaxRadius cfg := by rw [hM]; intro hc; linarith
  have hs : searchRadii cfg = [cfg.maxRadiusKM] := by
    rw [searchRadii_eq]
    simp [h2, h4, h10]
  refine ⟨hs, fun e q st => ?_⟩
  rw [findNearestDriver, hs]
  rcases hsr : searchDriversInRadius e st (q cfg.maxRadiusKM) with ⟨o, st1⟩
  cases o
  · simp [tryRadii, hsr]
  · simp [tryRadii, hsr]

/-- Witness for the amended C7 at the configuration (initial 60, max 50). -/
theorem no_config_validation_witness :
    searchRadii invCfg = [invCfg.maxRadiusKM] ∧
    ∀ (e : String → Bool) (q : ℚ → List GeoResult) (st : StoreState),
      findNearestDriver invCfg e q st = searchDriversInRadius e st (q invCfg.maxRadiusKM) :=
  no_config_validation invCfg (by norm_num [invCfg]) (by norm_num [invCfg])
    (by norm_num [invCfg])

/-- C5 counterexample: the request with pickup latitude 91 passes JSON
binding (numeric fields are only checked to be non-zero), the geo query
runs, and a driver is claimed — the availability set is mutated, so the
request is not rejected before the store calls. -/
theorem lat91_not_rejected_cex :
    createRide reqLat91 noFail qW1 stAvail =
      CreateRideOutcome.dispatched (some w1) (claimDriver stAvail "w1") ∧
    (claimDriver stAvail "w1").available ≠ stAvail.available := by
  constructor
  · norm_num [createRide, bindCreateRideRequest, validVehicleTypeString, reqLat91,
      findNearestDriver, searchRadii, effectiveMaxRadius, handlerMatchingConfig,
      tryRadii, qW1]
    decide
  · decide

/-- C5 amended: a request with an unknown vehicle class is rejected at
JSON binding (HTTP 400) before any store call, but coordinates are only
checked to be present and non-zero — no range validation exists — so the
latitude-91 request is not rejected and reaches the geo query and the
claim. -/
theorem createRide_validation_amended (req : CreateRideRequest) (e : String → Bool)
    (q : ℚ → List GeoResult) (st : StoreState)
    (h : validVehicleTypeString req.vehicleType = false) :
    createRide req e q st = CreateRideOutcome.badRequest ∧
    createRide reqLat91 noFail qW1 stAvail ≠ CreateRideOutcome.badRequest := by
  constructor
  · simp [createRide, bindCreateRideRequest, h]
  · norm_num [createRide, bindCreateRideRequest, validVehicleTypeString, reqLat91,
      findNearestDriver, searchRadii, effectiveMaxRadius, handlerMatchingConfig,
      tryRadii, qW1]
    exact ⟨by decide, by decide⟩

/-- Witness for the amended C5 at the unknown vehicle class "spaceship". -/
theorem createRide_validation_amended_witness :
    createRide reqBadType noFail qW1 stAvail = CreateRideOutcome.badRequest ∧
    createRide reqLat91 noFail qW1 stAvail ≠ CreateRideOutcome.badRequest :=
  createRide_validation_amended reqBadType noFail qW1 stAvail (by decide)
